import Mathlib

/-!
# Personal Finance Tracker: dashboard aggregation, budget utilisation and store handlers

A shallow embedding of `src/app.js` (the client's dashboard and budget rendering) and of
the write handlers of `src/server.js` (the Express routes over the MySQL tables).

Conventions of the embedding:

* money amounts are exact rationals (`ℚ`); the source uses IEEE doubles, whose rounding is
  not modelled;
* the one place where the source can leave the finite numbers is the division
  `spent / b.limit` of `renderBudgetList`; its result is a `JsNum`, which keeps
  `Infinity`, `-Infinity` and `NaN` apart from the finite values;
* a DOM container is modelled by the list of the elements appended to it, in order;
* a MySQL table is modelled by the list of its rows together with the next
  auto-increment id; no constraint of the schema (which is not part of the sources) is
  assumed.
-/

namespace FinanceTracker

/-! ## Numbers -/

/-- Value of a JavaScript arithmetic expression over exact amounts: a finite number, one of
the two infinities, or `NaN`. -/
inductive JsNum where
  | fin (q : ℚ)
  | posInf
  | negInf
  | nan
deriving DecidableEq

namespace JsNum

/-- The quotient `a / b` of two finite numbers as JavaScript computes it: a non-zero
number over zero is an infinity of its sign, zero over zero is `NaN`. The divisor zero is
the positive zero (a `DECIMAL` column holds no negative zero). -/
def div (a b : ℚ) : JsNum :=
  if b = 0 then
    if 0 < a then posInf else if a < 0 then negInf else nan
  else fin (a / b)

/-- The product `x * k` for a finite, positive factor `k`. -/
def mulPos (x : JsNum) (k : ℚ) : JsNum :=
  match x with
  | fin q => fin (q * k)
  | posInf => posInf
  | negInf => negInf
  | nan => nan

/-- The value of `Math.min(x, c)` for a finite `c`. -/
def mathMin (x : JsNum) (c : ℚ) : JsNum :=
  match x with
  | fin q => fin (min q c)
  | posInf => fin c
  | negInf => negInf
  | nan => nan

/-- The comparison `x > c` for a finite `c`; it is false on `NaN`. -/
def gt (x : JsNum) (c : ℚ) : Bool :=
  match x with
  | fin q => decide (c < q)
  | posInf => true
  | negInf => false
  | nan => false

/-- The difference `c - x` for a finite `c`. -/
def rsub (c : ℚ) (x : JsNum) : JsNum :=
  match x with
  | fin q => fin (c - q)
  | posInf => negInf
  | negInf => posInf
  | nan => nan

/-- The number lies in the closed interval from `lo` to `hi` (false on the infinities and
on `NaN`). -/
def between (lo hi : ℚ) (x : JsNum) : Prop :=
  match x with
  | fin q => lo ≤ q ∧ q ≤ hi
  | _ => False

end JsNum

/-! ## Data model (`src/app.js`, `src/server.js`) -/

/-- Entry of `App.data.categories`; the fallback record of `getCategory` has neither `id`
nor `type`. -/
structure Category where
  id : Option Int
  name : String
  type : Option String
  icon : String
deriving DecidableEq

/-- Transaction as delivered by `GET /api/transactions`. -/
structure Transaction where
  id : Int
  userId : Int
  categoryId : Int
  amount : ℚ
  description : String
  date : String
  type : String
deriving DecidableEq

/-- Budget as delivered by `GET /api/budgets`. -/
structure Budget where
  id : Int
  userId : Int
  categoryId : Int
  limit : ℚ
deriving DecidableEq

/-- The static catalogue `App.data.categories`. -/
def categories : List Category :=
  [ ⟨some 1, "Salary", some "income", "fa-money-bill-wave"⟩,
    ⟨some 2, "Freelance", some "income", "fa-laptop"⟩,
    ⟨some 3, "Investment", some "income", "fa-chart-line"⟩,
    ⟨some 4, "Groceries", some "expense", "fa-shopping-basket"⟩,
    ⟨some 5, "Rent", some "expense", "fa-home"⟩,
    ⟨some 6, "Utilities", some "expense", "fa-bolt"⟩,
    ⟨some 7, "Entertainment", some "expense", "fa-film"⟩,
    ⟨some 8, "Transportation", some "expense", "fa-bus"⟩,
    ⟨some 9, "Health", some "expense", "fa-heartbeat"⟩ ]

/-- The function `getCategory(id)`: the first catalogue entry with that id, or the
fallback record. -/
def getCategory (id : Int) : Category :=
  match categories.find? (fun c => decide (c.id = some id)) with
  | some c => c
  | none => ⟨none, "Unknown", none, "fa-question"⟩

/-- The call `xs.slice(start, stop)` of JavaScript for non-negative integer bounds. -/
def slice {α : Type} (xs : List α) (start stop : Nat) : List α :=
  (xs.take stop).drop start

/-! ## Budget rendering (`renderBudgetList`) -/

/-- Colours of the progress bar: `#34d399`, `#fbbf24`, `#f87171`. -/
inductive Color where
  | green
  | yellow
  | red
deriving DecidableEq

/-- The hexadecimal colour string written into the style attribute. -/
def Color.hex : Color → String
  | .green => "#34d399"
  | .yellow => "#fbbf24"
  | .red => "#f87171"

/-- The value of `spent` in `renderBudgetList`:
`transactions.filter(t => t.categoryId === b.categoryId).reduce((sum, t) => sum + t.amount, 0)`. -/
def spent (b : Budget) (transactions : List Transaction) : ℚ :=
  (transactions.filter (fun t => decide (t.categoryId = b.categoryId))).foldl
    (fun sum t => sum + t.amount) 0

/-- The value of `percent`: `Math.min((spent / b.limit) * 100, 100)`. -/
def percentOf (spentAmount limit : ℚ) : JsNum :=
  ((JsNum.div spentAmount limit).mulPos 100).mathMin 100

/-- The colour chosen for a percentage: green, then yellow when `percent > 70`, then red
when `percent > 90`. -/
def colorOf (percent : JsNum) : Color :=
  let color := Color.green
  let color := if percent.gt 70 then Color.yellow else color
  let color := if percent.gt 90 then Color.red else color
  color

/-- One element appended to the container by `renderBudgetList`. The remaining percentage
`100 - percent` is shown only by the full (non-compact) card. -/
structure BudgetCard where
  category : Category
  spent : ℚ
  limit : ℚ
  percent : JsNum
  color : Color
  remaining : Option JsNum
deriving DecidableEq

/-- The body of the `budgets.forEach` callback of `renderBudgetList`. -/
def budgetCard (isCompact : Bool) (transactions : List Transaction) (b : Budget) :
    BudgetCard :=
  let cat := getCategory b.categoryId
  let s := spent b transactions
  let percent := percentOf s b.limit
  let color := colorOf percent
  { category := cat, spent := s, limit := b.limit, percent := percent, color := color,
    remaining := if isCompact then none else some (JsNum.rsub 100 percent) }

/-- Content of the container after `renderBudgetList`: the empty-state message, or the
cards appended one after the other. -/
structure BudgetList where
  emptyState : Bool
  cards : List BudgetCard
deriving DecidableEq

/-- The function `renderBudgetList(container, isCompact)` on the fetched budgets and
transactions. The `forEach` loop appends one card per budget to the container. -/
def renderBudgetList (isCompact : Bool) (budgets : List Budget)
    (transactions : List Transaction) : BudgetList :=
  if budgets.length = 0 then { emptyState := true, cards := [] }
  else
    { emptyState := false,
      cards := budgets.foldl (fun container b =>
        container ++ [budgetCard isCompact transactions b]) [] }

/-! ## Dashboard (`refreshDashboard`) -/

/-- The two accumulators `income` and `expense` of `refreshDashboard`. -/
structure Totals where
  income : ℚ
  expense : ℚ
deriving DecidableEq

/-- One step of `transactions.forEach` in `refreshDashboard`:
`if (t.type === 'income') income += t.amount; else expense += t.amount;`. -/
def addTransactionAmount (acc : Totals) (t : Transaction) : Totals :=
  if t.type = "income" then { acc with income := acc.income + t.amount }
  else { acc with expense := acc.expense + t.amount }

/-- A row of the recent-transactions list. -/
structure RecentRow where
  icon : String
  title : String
  date : String
  type : String
  sign : String
  amount : ℚ
deriving DecidableEq

/-- The row built for one transaction of the recent list. -/
def recentRow (t : Transaction) : RecentRow :=
  let cat := getCategory t.categoryId
  { icon := cat.icon,
    title := if t.description = "" then cat.name else t.description,
    date := t.date,
    type := t.type,
    sign := if t.type = "income" then "+" else "-",
    amount := t.amount }

/-- The transactions shown in the recent list: `transactions.slice(0, 4)`. -/
def recentTransactions (transactions : List Transaction) : List Transaction :=
  slice transactions 0 4

/-- What `refreshDashboard` displays. -/
structure Dashboard where
  income : ℚ
  expense : ℚ
  balance : ℚ
  recent : List RecentRow
  budgetSummary : BudgetList
deriving DecidableEq

/-- The function `refreshDashboard` on the fetched transactions and budgets. -/
def refreshDashboard (transactions : List Transaction) (budgets : List Budget) :
    Dashboard :=
  let acc := transactions.foldl addTransactionAmount { income := 0, expense := 0 }
  let income := acc.income
  let expense := acc.expense
  let balance := income - expense
  { income := income, expense := expense, balance := balance,
    recent := (recentTransactions transactions).map recentRow,
    budgetSummary := renderBudgetList true budgets transactions }

/-! ## Store handlers (`src/server.js`) -/

/-- A MySQL table with an `AUTO_INCREMENT` primary key: its rows in insertion order and the
id the next `INSERT` receives. -/
structure Table (α : Type) where
  rows : List α
  nextId : Int
deriving DecidableEq

/-- Row of the table `transactions`. -/
structure TransactionRow where
  id : Int
  user_id : Int
  category_id : Int
  amount : ℚ
  description : String
  date : String
  type : String
deriving DecidableEq

/-- Row of the table `budgets`. -/
structure BudgetRow where
  id : Int
  user_id : Int
  category_id : Int
  limit_amount : ℚ
deriving DecidableEq

/-- Answer of a route: the HTTP status, the `message` or `error` text of the JSON body and
the `id` field when the body has one. -/
structure Response where
  status : Nat
  text : String
  id : Option Int
deriving DecidableEq

/-- JSON body of `POST /api/transactions`. -/
structure TransactionBody where
  type : String
  amount : ℚ
  categoryId : Int
  date : String
  description : String
deriving DecidableEq

/-- The route `POST /api/transactions`. The header `user-id` is `none` when it is absent
or empty, which is what `!userId` tests; nothing else of the request is tested. -/
def postTransactions (db : Table TransactionRow) (userId : Option Int)
    (body : TransactionBody) : Response × Table TransactionRow :=
  match userId with
  | none => ({ status := 401, text := "Unauthorized", id := none }, db)
  | some uid =>
    let insertId := db.nextId
    let row : TransactionRow :=
      { id := insertId, user_id := uid, category_id := body.categoryId,
        amount := body.amount, description := body.description, date := body.date,
        type := body.type }
    ({ status := 200, text := "Added successfully", id := some insertId },
      { rows := db.rows ++ [row], nextId := db.nextId + 1 })

/-- The mapping of a row to the record sent to the client by `GET /api/transactions`. -/
def TransactionRow.toTransaction (row : TransactionRow) : Transaction :=
  { id := row.id, userId := row.user_id, categoryId := row.category_id,
    amount := row.amount, description := row.description, date := row.date,
    type := row.type }

/-- The route `POST /api/budgets` for a request that carries the header `user-id` (the
route does not test the header; `App.setBudget` always sends the current user's id).
An existing budget of the user for the category has its limit overwritten, otherwise a
row is inserted. The limit is not tested. -/
def postBudgets (db : Table BudgetRow) (userId categoryId : Int) (limit : ℚ) :
    Response × Table BudgetRow :=
  let existing := db.rows.filter
    (fun r => decide (r.user_id = userId) && decide (r.category_id = categoryId))
  let db :=
    if h : existing.length > 0 then
      { db with rows := db.rows.map (fun r =>
          if r.id = (existing.get ⟨0, h⟩).id then { r with limit_amount := limit } else r) }
    else
      { rows := db.rows ++
          [{ id := db.nextId, user_id := userId, category_id := categoryId,
             limit_amount := limit }],
        nextId := db.nextId + 1 }
  ({ status := 200, text := "Budget set", id := none }, db)

/-- The mapping of a row to the record sent to the client by `GET /api/budgets`. -/
def BudgetRow.toBudget (row : BudgetRow) : Budget :=
  { id := row.id, userId := row.user_id, categoryId := row.category_id,
    limit := row.limit_amount }

/-- The route `GET /api/budgets` for a request that carries the header `user-id`. -/
def getBudgets (db : Table BudgetRow) (userId : Int) : List Budget :=
  (db.rows.filter (fun r => decide (r.user_id = userId))).map BudgetRow.toBudget

/-- The submit handler of `add-transaction-form` followed by `App.addTransaction`: the
parsed form fields are posted as they are, with the current user's id as header. -/
def submitTransactionForm (db : Table TransactionRow) (currentUser : Int) (type : String)
    (amount : ℚ) (categoryId : Int) (date desc : String) :
    Response × Table TransactionRow :=
  postTransactions db (some currentUser)
    { type := type, amount := amount, categoryId := categoryId, date := date,
      description := desc }

/-- The submit handler of `add-budget-form` followed by `App.setBudget`: the parsed form
fields are posted as they are, with the current user's id as header. -/
def submitBudgetForm (db : Table BudgetRow) (currentUser : Int) (categoryId : Int)
    (limit : ℚ) : Response × Table BudgetRow :=
  postBudgets db currentUser categoryId limit

/-- The route `DELETE /api/transactions/:id` for a request that carries the header
`user-id` (the route does not test the header; `App.deleteTransaction` always sends the
current user's id): `DELETE FROM transactions WHERE id = ? AND user_id = ?`. -/
def deleteTransaction (db : Table TransactionRow) (userId id : Int) :
    Response × Table TransactionRow :=
  ({ status := 200, text := "Deleted", id := none },
    { db with rows := db.rows.filter (fun r =>
        !(decide (r.id = id) && decide (r.user_id = userId))) })

/-- Row of the table `users`. -/
structure UserRow where
  id : Int
  username : String
  email : String
  password_hash : String
deriving DecidableEq

/-- Answer of the user routes: an error with its HTTP status, or the JSON record
`{ id, username, email }`. -/
inductive UserResponse where
  | error (status : Nat) (error : String)
  | user (id : Int) (username email : String)
deriving DecidableEq

/-- The route `POST /api/register`. A body field that is absent or empty (what `!field`
tests) is the empty string. The comparison `email = ?` is equality of strings. -/
def register (db : Table UserRow) (username email password : String) :
    UserResponse × Table UserRow :=
  if username = "" ∨ email = "" ∨ password = "" then
    (UserResponse.error 400 "All fields required", db)
  else
    let users := db.rows.filter (fun u => decide (u.email = email))
    if users.length > 0 then (UserResponse.error 400 "Email already exists", db)
    else
      let insertId := db.nextId
      (UserResponse.user insertId username email,
        { rows := db.rows ++
            [{ id := insertId, username := username, email := email,
               password_hash := password }],
          nextId := db.nextId + 1 })

/-- Effect on one row of `UPDATE users SET username = ?, email = ? [, password_hash = ?]
WHERE id = ?`: the password is overwritten only when one is sent. -/
def updateUserRow (uid : Int) (username email password : String) (u : UserRow) : UserRow :=
  if u.id = uid then
    if password = "" then { u with username := username, email := email }
    else { u with username := username, email := email, password_hash := password }
  else u

/-- The route `PUT /api/users/profile`. The header `user-id` is `none` when it is absent
or empty; a body field that is absent or empty is the empty string. The comparison
`email = ?` is equality of strings. -/
def updateProfile (db : Table UserRow) (userId : Option Int)
    (username email password : String) : UserResponse × Table UserRow :=
  match userId with
  | none => (UserResponse.error 401 "Unauthorized", db)
  | some uid =>
    if username = "" ∨ email = "" then
      (UserResponse.error 400 "Username and Email are required", db)
    else
      let existing := db.rows.filter (fun u =>
        decide (u.email = email) && !decide (u.id = uid))
      if existing.length > 0 then (UserResponse.error 400 "Email already in use", db)
      else
        (UserResponse.user uid username email,
          { db with rows := db.rows.map (updateUserRow uid username email password) })

/-! ## Notions used to state the properties -/

/-- Sum of the amounts of the transactions that satisfy `p`. -/
def sumAmountsWhere (p : Transaction → Bool) (transactions : List Transaction) : ℚ :=
  ((transactions.filter p).map (fun t => t.amount)).sum

/-- No two budgets of the table share a `(user_id, category_id)` pair. -/
def PairsUnique (rows : List BudgetRow) : Prop :=
  (rows.map (fun r => (r.user_id, r.category_id))).Nodup

/-- The row is the budget of the given user for the given category. -/
def BudgetRow.isFor (r : BudgetRow) (userId categoryId : Int) : Prop :=
  r.user_id = userId ∧ r.category_id = categoryId

/-- The fallback record of `getCategory`: `{ name: 'Unknown', icon: 'fa-question' }`. -/
def unknownCategory : Category :=
  { id := none, name := "Unknown", type := none, icon := "fa-question" }

/-- Status tiers as the specification names them. -/
inductive Tier where
  | ok
  | warning
  | critical
deriving DecidableEq

/-- The colour token of a tier in the specification's words. -/
def Tier.color : Tier → Color
  | .ok => Color.green
  | .warning => Color.yellow
  | .critical => Color.red

/-- The key of the table `users`: ids are pairwise different and below the next
auto-increment id. -/
def KeysUnique (db : Table UserRow) : Prop :=
  (db.rows.map (fun u => u.id)).Nodup ∧ ∀ u ∈ db.rows, u.id < db.nextId

/-- No two users of the table share an email. -/
def EmailsUnique (rows : List UserRow) : Prop :=
  (rows.map (fun u => u.email)).Nodup

/-! ## Auxiliary lemmas -/

theorem foldl_add_amount (l : List Transaction) (a : ℚ) :
    l.foldl (fun sum t => sum + t.amount) a = a + (l.map (fun t => t.amount)).sum := by
  induction l generalizing a with
  | nil => simp
  | cons t l ih => simp [ih, add_assoc]

theorem spent_eq_sumAmountsWhere (b : Budget) (transactions : List Transaction) :
    spent b transactions
      = sumAmountsWhere (fun t => decide (t.categoryId = b.categoryId)) transactions := by
  simp [spent, sumAmountsWhere, foldl_add_amount]

theorem foldl_addTransactionAmount (l : List Transaction) (acc : Totals) :
    l.foldl addTransactionAmount acc
      = { income := acc.income + sumAmountsWhere (fun t => decide (t.type = "income")) l,
          expense := acc.expense
            + sumAmountsWhere (fun t => !decide (t.type = "income")) l } := by
  induction l generalizing acc with
  | nil => simp [sumAmountsWhere]
  | cons t l ih =>
    rw [List.foldl_cons, ih]
    by_cases h : t.type = "income"
    · simp [addTransactionAmount, sumAmountsWhere, h, add_assoc]
    · simp [addTransactionAmount, sumAmountsWhere, h, add_assoc]

theorem refreshDashboard_income (transactions : List Transaction) (budgets : List Budget) :
    (refreshDashboard transactions budgets).income
      = sumAmountsWhere (fun t => decide (t.type = "income")) transactions := by
  simp [refreshDashboard, foldl_addTransactionAmount]

theorem refreshDashboard_expense (transactions : List Transaction) (budgets : List Budget) :
    (refreshDashboard transactions budgets).expense
      = sumAmountsWhere (fun t => !decide (t.type = "income")) transactions := by
  simp [refreshDashboard, foldl_addTransactionAmount]

theorem refreshDashboard_balance (transactions : List Transaction) (budgets : List Budget) :
    (refreshDashboard transactions budgets).balance
      = (refreshDashboard transactions budgets).income
        - (refreshDashboard transactions budgets).expense := by
  simp [refreshDashboard]

theorem sumAmountsWhere_perm (p : Transaction → Bool) {l l' : List Transaction}
    (h : l.Perm l') : sumAmountsWhere p l = sumAmountsWhere p l' := by
  unfold sumAmountsWhere
  exact ((h.filter p).map _).sum_eq

/-- C2: for every reordering of the transactions the dashboard shows the same income total,
expense total and balance, and in both orders the balance is the income total minus the
expense total. -/
theorem refreshDashboard_perm (transactions reordered : List Transaction)
    (budgets budgets2 : List Budget) (h : transactions.Perm reordered) :
    (refreshDashboard reordered budgets2).income
        = (refreshDashboard transactions budgets).income
      ∧ (refreshDashboard reordered budgets2).expense
        = (refreshDashboard transactions budgets).expense
      ∧ (refreshDashboard reordered budgets2).balance
        = (refreshDashboard transactions budgets).balance
      ∧ (refreshDashboard transactions budgets).balance
        = (refreshDashboard transactions budgets).income
          - (refreshDashboard transactions budgets).expense
      ∧ (refreshDashboard reordered budgets2).balance
        = (refreshDashboard reordered budgets2).income
          - (refreshDashboard reordered budgets2).expense := by
  have hi : (refreshDashboard reordered budgets2).income
      = (refreshDashboard transactions budgets).income := by
    rw [refreshDashboard_income, refreshDashboard_income]
    exact (sumAmountsWhere_perm _ h).symm
  have he : (refreshDashboard reordered budgets2).expense
      = (refreshDashboard transactions budgets).expense := by
    rw [refreshDashboard_expense, refreshDashboard_expense]
    exact (sumAmountsWhere_perm _ h).symm
  refine ⟨hi, he, ?_, refreshDashboard_balance _ _, refreshDashboard_balance _ _⟩
  rw [refreshDashboard_balance, refreshDashboard_balance, hi, he]

/-- C2 (witness): an income of 5000 followed by an expense of 2000, and the same two
transactions in the other order. -/
theorem refreshDashboard_perm_witness :
    (refreshDashboard
        [ { id := 2, userId := 1, categoryId := 4, amount := 2000, description := "",
            date := "2024-01-02", type := "expense" },
          { id := 1, userId := 1, categoryId := 1, amount := 5000, description := "",
            date := "2024-01-01", type := "income" } ] []).balance
      = (refreshDashboard
        [ { id := 1, userId := 1, categoryId := 1, amount := 5000, description := "",
            date := "2024-01-01", type := "income" },
          { id := 2, userId := 1, categoryId := 4, amount := 2000, description := "",
            date := "2024-01-02", type := "expense" } ] []).balance :=
  (refreshDashboard_perm _ _ [] [] (List.Perm.swap _ _ [])).2.2.1

/-! ## Budget utilisation -/

theorem renderBudgetList_singleton (isCompact : Bool) (b : Budget)
    (transactions : List Transaction) :
    (renderBudgetList isCompact [b] transactions).cards
      = [budgetCard isCompact transactions b] := by
  simp [renderBudgetList]

theorem percentOf_of_pos (s limit : ℚ) (h : 0 < limit) :
    percentOf s limit = JsNum.fin (min 100 (100 * s / limit)) := by
  have hne : limit ≠ 0 := ne_of_gt h
  simp only [percentOf, JsNum.div, hne, if_false, JsNum.mulPos, JsNum.mathMin]
  rw [min_comm, mul_div_assoc, mul_comm]

theorem sumAmountsWhere_nonneg (p : Transaction → Bool) (l : List Transaction)
    (h : ∀ t ∈ l, 0 ≤ t.amount) : 0 ≤ sumAmountsWhere p l := by
  unfold sumAmountsWhere
  apply List.sum_nonneg
  intro x hx
  obtain ⟨t, ht, rfl⟩ := List.mem_map.1 hx
  exact h t (List.mem_filter.1 ht).1

/-- C4 (counterexample): with a limit of -100 and one transaction of 50 in the budget's
category the percentage is -50, which is below 0. -/
theorem renderBudgetList_percent_counterexample :
    ¬ (∀ (b : Budget) (transactions : List Transaction),
        ∀ card ∈ (renderBudgetList false [b] transactions).cards,
          card.percent.between 0 100) := by
  intro h
  have h1 := h { id := 1, userId := 1, categoryId := 4, limit := -100 }
    [ { id := 1, userId := 1, categoryId := 4, amount := 50, description := "",
        date := "2024-01-01", type := "expense" } ]
    _ (by rw [renderBudgetList_singleton]; exact List.mem_singleton.2 rfl)
  norm_num [budgetCard, percentOf, spent, JsNum.div, JsNum.mulPos, JsNum.mathMin,
    JsNum.between] at h1

/-- C4 (amended): for a budget with a positive limit and transactions whose amounts are all
non-negative, the percentage of the single status computed for the budget is a finite
number between 0 and 100. -/
theorem renderBudgetList_percent_bounds (isCompact : Bool) (b : Budget)
    (transactions : List Transaction) (h : 0 < b.limit)
    (hT : ∀ t ∈ transactions, 0 ≤ t.amount) :
    ∃ card : BudgetCard,
      (renderBudgetList isCompact [b] transactions).cards = [card]
        ∧ card.percent.between 0 100 := by
  refine ⟨budgetCard isCompact transactions b, renderBudgetList_singleton _ _ _, ?_⟩
  have hs : 0 ≤ spent b transactions := by
    rw [spent_eq_sumAmountsWhere]
    exact sumAmountsWhere_nonneg _ _ hT
  show (percentOf (spent b transactions) b.limit).between 0 100
  rw [percentOf_of_pos _ _ h]
  refine ⟨le_min (by norm_num) ?_, min_le_left _ _⟩
  exact div_nonneg (mul_nonneg (by norm_num) hs) (le_of_lt h)

/-- C4 (witness): a limit of 500 and one transaction of 450 in the budget's category. -/
theorem renderBudgetList_percent_bounds_witness :
    ∃ card : BudgetCard,
      (renderBudgetList true [{ id := 1, userId := 1, categoryId := 4, limit := 500 }]
          [ { id := 1, userId := 1, categoryId := 4, amount := 450, description := "",
              date := "2024-01-01", type := "expense" } ]).cards = [card]
        ∧ card.percent.between 0 100 :=
  renderBudgetList_percent_bounds true
    { id := 1, userId := 1, categoryId := 4, limit := 500 }
    [ { id := 1, userId := 1, categoryId := 4, amount := 450, description := "",
        date := "2024-01-01", type := "expense" } ]
    (by norm_num)
    (by
      intro t ht
      rw [List.mem_singleton.1 ht]
      norm_num)

/-- C5: a finite percentage `p` is shown green (tier ok) exactly when `p ≤ 70`, yellow (tier
warning) exactly when `70 < p ≤ 90` and red (tier critical) exactly when `p > 90`; so 70 is
green, 90 is yellow, 70.0001 is yellow and 90.0001 is red, and a limit of 500 with 450 spent
gives the percentage 90, shown yellow. -/
theorem colorOf_thresholds :
    (∀ p : ℚ,
        (colorOf (JsNum.fin p) = Color.green ↔ p ≤ 70)
          ∧ (colorOf (JsNum.fin p) = Color.yellow ↔ 70 < p ∧ p ≤ 90)
          ∧ (colorOf (JsNum.fin p) = Color.red ↔ 90 < p))
      ∧ colorOf (JsNum.fin 70) = Color.green
      ∧ colorOf (JsNum.fin (70 + 1 / 10000)) = Color.yellow
      ∧ colorOf (JsNum.fin 90) = Color.yellow
      ∧ colorOf (JsNum.fin (90 + 1 / 10000)) = Color.red
      ∧ (∀ isCompact : Bool,
          (budgetCard isCompact
              [ { id := 2, userId := 1, categoryId := 4, amount := 200, description := "",
                  date := "2024-02-01", type := "expense" },
                { id := 1, userId := 1, categoryId := 4, amount := 250, description := "",
                  date := "2024-01-01", type := "expense" } ]
              { id := 1, userId := 1, categoryId := 4, limit := 500 }).percent
            = JsNum.fin 90
          ∧ (budgetCard isCompact
              [ { id := 2, userId := 1, categoryId := 4, amount := 200, description := "",
                  date := "2024-02-01", type := "expense" },
                { id := 1, userId := 1, categoryId := 4, amount := 250, description := "",
                  date := "2024-01-01", type := "expense" } ]
              { id := 1, userId := 1, categoryId := 4, limit := 500 }).color
            = Color.yellow) := by
  have key : ∀ p : ℚ,
      (colorOf (JsNum.fin p) = Color.green ↔ p ≤ 70)
        ∧ (colorOf (JsNum.fin p) = Color.yellow ↔ 70 < p ∧ p ≤ 90)
        ∧ (colorOf (JsNum.fin p) = Color.red ↔ 90 < p) := by
    intro p
    by_cases h90 : 90 < p
    · have h70 : 70 < p := by linarith
      simp [colorOf, JsNum.gt, h90, h70, not_le.2 h70, not_le.2 h90]
    · by_cases h70 : 70 < p
      · simp [colorOf, JsNum.gt, h90, h70, not_le.2 h70, not_lt.1 h90]
      · simp [colorOf, JsNum.gt, h90, h70, not_lt.1 h70]
  have h90 : ∀ isCompact : Bool,
      (budgetCard isCompact
          [ { id := 2, userId := 1, categoryId := 4, amount := 200, description := "",
              date := "2024-02-01", type := "expense" },
            { id := 1, userId := 1, categoryId := 4, amount := 250, description := "",
              date := "2024-01-01", type := "expense" } ]
          { id := 1, userId := 1, categoryId := 4, limit := 500 }).percent
        = JsNum.fin 90 := by
    intro isCompact
    norm_num [budgetCard, percentOf, spent, JsNum.div, JsNum.mulPos, JsNum.mathMin]
  refine ⟨key, (key 70).1.2 le_rfl, (key _).2.1.2 ⟨by norm_num, by norm_num⟩,
    (key 90).2.1.2 ⟨by norm_num, le_rfl⟩, (key _).2.2.2 (by norm_num), ?_⟩
  intro isCompact
  refine ⟨h90 isCompact, ?_⟩
  have hc : (budgetCard isCompact
          [ { id := 2, userId := 1, categoryId := 4, amount := 200, description := "",
              date := "2024-02-01", type := "expense" },
            { id := 1, userId := 1, categoryId := 4, amount := 250, description := "",
              date := "2024-01-01", type := "expense" } ]
          { id := 1, userId := 1, categoryId := 4, limit := 500 }).color
      = colorOf (budgetCard isCompact
          [ { id := 2, userId := 1, categoryId := 4, amount := 200, description := "",
              date := "2024-02-01", type := "expense" },
            { id := 1, userId := 1, categoryId := 4, amount := 250, description := "",
              date := "2024-01-01", type := "expense" } ]
          { id := 1, userId := 1, categoryId := 4, limit := 500 }).percent := rfl
  rw [hc, h90 isCompact]
  exact (key 90).2.1.2 ⟨by norm_num, le_rfl⟩

/-! ## Store handlers -/

/-- The rows selected by `SELECT id FROM budgets WHERE user_id = ? AND category_id = ?`. -/
theorem mem_existing_iff (rows : List BudgetRow) (userId categoryId : Int) (r : BudgetRow) :
    r ∈ rows.filter
        (fun r => decide (r.user_id = userId) && decide (r.category_id = categoryId))
      ↔ r ∈ rows ∧ r.isFor userId categoryId := by
  simp [List.mem_filter, BudgetRow.isFor]

theorem postBudgets_response (db : Table BudgetRow) (userId categoryId : Int) (limit : ℚ) :
    (postBudgets db userId categoryId limit).1
      = { status := 200, text := "Budget set", id := none } := rfl

theorem postBudgets_rows_of_cons (db : Table BudgetRow) (userId categoryId : Int)
    (limit : ℚ) (e : BudgetRow) (rest : List BudgetRow)
    (h : db.rows.filter
        (fun r => decide (r.user_id = userId) && decide (r.category_id = categoryId))
      = e :: rest) :
    (postBudgets db userId categoryId limit).2.rows
      = db.rows.map (fun r =>
          if r.id = e.id then { r with limit_amount := limit } else r) := by
  simp [postBudgets, h]

theorem postBudgets_rows_of_nil (db : Table BudgetRow) (userId categoryId : Int)
    (limit : ℚ)
    (h : db.rows.filter
        (fun r => decide (r.user_id = userId) && decide (r.category_id = categoryId))
      = []) :
    (postBudgets db userId categoryId limit).2.rows
      = db.rows ++ [{ id := db.nextId, user_id := userId, category_id := categoryId,
                      limit_amount := limit }] := by
  simp [postBudgets, h]

theorem postBudgets_stores_limit (db : Table BudgetRow) (userId categoryId : Int)
    (limit : ℚ) :
    ∃ r ∈ (postBudgets db userId categoryId limit).2.rows,
      r.isFor userId categoryId ∧ r.limit_amount = limit := by
  cases hex : db.rows.filter
      (fun r => decide (r.user_id = userId) && decide (r.category_id = categoryId)) with
  | nil =>
    rw [postBudgets_rows_of_nil db userId categoryId limit hex]
    exact ⟨_, List.mem_append_right _ (List.mem_singleton.2 rfl), ⟨rfl, rfl⟩, rfl⟩
  | cons e rest =>
    rw [postBudgets_rows_of_cons db userId categoryId limit e rest hex]
    have he : e ∈ db.rows ∧ e.isFor userId categoryId := by
      rw [← mem_existing_iff, hex]
      exact List.mem_cons_self _ _
    refine ⟨{ e with limit_amount := limit }, ?_, he.2, rfl⟩
    exact List.mem_map.2 ⟨e, he.1, by simp⟩

/-- C6 (counterexample): on the empty table a request of user 1 for category 4 with the
limit -5 is answered 200 and changes the table. -/
theorem postBudgets_nonpositive_limit_counterexample :
    ¬ (∀ (db : Table BudgetRow) (userId categoryId : Int) (limit : ℚ), limit ≤ 0 →
        (postBudgets db userId categoryId limit).1.status ≠ 200
          ∧ (postBudgets db userId categoryId limit).2 = db) := by
  intro h
  exact (h { rows := [], nextId := 1 } 1 4 (-5) (by norm_num)).1 rfl

/-- C6 (amended): budget creation does not test the limit: every `POST /api/budgets`
request, whatever its limit (zero and negative limits included), is answered 200
`Budget set` and leaves in the table a budget of that user for that category whose limit is
the requested one, which `GET /api/budgets` then delivers to the utilisation computation;
the form handler of the client posts the limit as it is. -/
theorem postBudgets_accepts_any_limit (db : Table BudgetRow) (userId categoryId : Int)
    (limit : ℚ) :
    (postBudgets db userId categoryId limit).1
        = { status := 200, text := "Budget set", id := none }
      ∧ (∃ r ∈ (postBudgets db userId categoryId limit).2.rows,
          r.isFor userId categoryId ∧ r.limit_amount = limit)
      ∧ (∃ b ∈ getBudgets (postBudgets db userId categoryId limit).2 userId,
          b.categoryId = categoryId ∧ b.limit = limit)
      ∧ submitBudgetForm db userId categoryId limit
        = postBudgets db userId categoryId limit := by
  refine ⟨rfl, postBudgets_stores_limit db userId categoryId limit, ?_, rfl⟩
  obtain ⟨r, hr, hfor, hlim⟩ := postBudgets_stores_limit db userId categoryId limit
  refine ⟨r.toBudget, ?_, hfor.2, hlim⟩
  exact List.mem_map.2 ⟨r, List.mem_filter.2 ⟨hr, by simpa using hfor.1⟩, rfl⟩

/-- C7 (counterexample): on the empty table a request of user 1 with the amount -5 is
answered 200 and changes the table. -/
theorem postTransactions_negative_amount_counterexample :
    ¬ (∀ (db : Table TransactionRow) (userId : Option Int) (body : TransactionBody),
        body.amount < 0 →
          (postTransactions db userId body).1.status ≠ 200
            ∧ (postTransactions db userId body).2 = db) := by
  intro h
  exact (h { rows := [], nextId := 1 } (some 1)
    { type := "expense", amount := -5, categoryId := 4, date := "2024-01-01",
      description := "" } (by norm_num)).1 rfl

/-- C7 (amended): transaction creation does not test the amount: every
`POST /api/transactions` request that carries a user id, whatever its amount (negative
amounts included), is answered 200 and appends one row with that amount, which
`GET /api/transactions` then delivers to the aggregation; only a request without user id
is rejected (401), and it leaves the table unchanged; the form handler of the client posts
the amount as it is. -/
theorem postTransactions_accepts_any_amount (db : Table TransactionRow)
    (body : TransactionBody) :
    (∀ uid : Int,
        (postTransactions db (some uid) body).1.status = 200
          ∧ ∃ row : TransactionRow,
              (postTransactions db (some uid) body).2.rows = db.rows ++ [row]
                ∧ row.user_id = uid ∧ row.amount = body.amount
                ∧ row.toTransaction.amount = body.amount)
      ∧ ((postTransactions db none body).1.status = 401
          ∧ (postTransactions db none body).2 = db)
      ∧ (∀ (currentUser : Int),
          submitTransactionForm db currentUser body.type body.amount body.categoryId
              body.date body.description
            = postTransactions db (some currentUser) body) := by
  refine ⟨fun uid => ⟨rfl, _, rfl, rfl, rfl, rfl⟩, ⟨rfl, rfl⟩, fun _ => rfl⟩

/-- C8: when no two budgets of the table share a `(user_id, category_id)` pair, the same
holds after any `POST /api/budgets` request; a row is inserted only when the table has no
budget for the pair, and otherwise no row is added or removed, ids and pairs stay as they
are, and the budget of the pair carries the new limit. -/
theorem postBudgets_pairsUnique (db : Table BudgetRow) (userId categoryId : Int)
    (limit : ℚ) (h : PairsUnique db.rows) :
    PairsUnique (postBudgets db userId categoryId limit).2.rows
      ∧ ((∀ r ∈ db.rows, ¬ r.isFor userId categoryId) →
          (postBudgets db userId categoryId limit).2.rows
            = db.rows ++ [{ id := db.nextId, user_id := userId, category_id := categoryId,
                            limit_amount := limit }])
      ∧ ((∃ r ∈ db.rows, r.isFor userId categoryId) →
          (postBudgets db userId categoryId limit).2.rows.map
              (fun r => (r.id, r.user_id, r.category_id))
            = db.rows.map (fun r => (r.id, r.user_id, r.category_id))
          ∧ ∀ r ∈ (postBudgets db userId categoryId limit).2.rows,
              r.isFor userId categoryId → r.limit_amount = limit) := by
  cases hex : db.rows.filter
      (fun r => decide (r.user_id = userId) && decide (r.category_id = categoryId)) with
  | nil =>
    have hnone : ∀ r ∈ db.rows, ¬ r.isFor userId categoryId := by
      intro r hr hfor
      have : r ∈ db.rows.filter
          (fun r => decide (r.user_id = userId) && decide (r.category_id = categoryId)) :=
        (mem_existing_iff _ _ _ _).2 ⟨hr, hfor⟩
      rw [hex] at this
      exact List.not_mem_nil _ this
    rw [postBudgets_rows_of_nil db userId categoryId limit hex]
    refine ⟨?_, fun _ => rfl, ?_⟩
    · unfold PairsUnique at h ⊢
      rw [List.map_append, List.map_singleton]
      refine List.Nodup.append h (List.nodup_singleton _) ?_
      rw [List.disjoint_singleton]
      intro hmem
      obtain ⟨r, hr, hpair⟩ := List.mem_map.1 hmem
      have h1 : r.user_id = userId := congrArg Prod.fst hpair
      have h2 : r.category_id = categoryId := congrArg Prod.snd hpair
      exact hnone r hr ⟨h1, h2⟩
    · rintro ⟨r, hr, hfor⟩
      exact absurd hfor (hnone r hr)
  | cons e rest =>
    have he : e ∈ db.rows ∧ e.isFor userId categoryId := by
      rw [← mem_existing_iff, hex]
      exact List.mem_cons_self _ _
    rw [postBudgets_rows_of_cons db userId categoryId limit e rest hex]
    have hpairs : (db.rows.map (fun r =>
          if r.id = e.id then { r with limit_amount := limit } else r)).map
            (fun r => (r.user_id, r.category_id))
        = db.rows.map (fun r => (r.user_id, r.category_id)) := by
      rw [List.map_map]
      apply List.map_congr_left
      intro r _
      by_cases hid : r.id = e.id <;> simp [hid]
    refine ⟨?_, ?_, fun _ => ⟨?_, ?_⟩⟩
    · unfold PairsUnique at h ⊢
      rw [hpairs]
      exact h
    · intro hnone
      exact absurd he.2 (hnone e he.1)
    · rw [List.map_map]
      apply List.map_congr_left
      intro r _
      by_cases hid : r.id = e.id <;> simp [hid]
    · intro r2 hr2 hfor2
      obtain ⟨r, hr, rfl⟩ := List.mem_map.1 hr2
      have hre : r = e := by
        apply List.inj_on_of_nodup_map h hr he.1
        by_cases hid : r.id = e.id
        · simp only [hid, if_true] at hfor2
          exact Prod.ext (hfor2.1.trans he.2.1.symm) (hfor2.2.trans he.2.2.symm)
        · simp only [hid, if_false] at hfor2
          exact Prod.ext (hfor2.1.trans he.2.1.symm) (hfor2.2.trans he.2.2.symm)
      subst hre
      simp

/-- C8 (witness): user 1 has a budget of 100 for category 4 and one of 300 for category 5
and sets the budget of category 4 to 200. -/
theorem postBudgets_pairsUnique_witness :
    PairsUnique
        [ { id := 1, user_id := 1, category_id := 4, limit_amount := 100 },
          { id := 2, user_id := 1, category_id := 5, limit_amount := 300 } ]
      ∧ PairsUnique (postBudgets
          { rows := [ { id := 1, user_id := 1, category_id := 4, limit_amount := 100 },
                      { id := 2, user_id := 1, category_id := 5, limit_amount := 300 } ],
            nextId := 3 } 1 4 200).2.rows :=
  ⟨by unfold PairsUnique; decide,
    (postBudgets_pairsUnique
      { rows := [ { id := 1, user_id := 1, category_id := 4, limit_amount := 100 },
                  { id := 2, user_id := 1, category_id := 5, limit_amount := 300 } ],
        nextId := 3 } 1 4 200 (by unfold PairsUnique; decide)).1⟩

/-! ## Order of the rendered elements -/

theorem foldl_append_singleton {α β : Type} (f : α → β) (l : List α) (acc : List β) :
    l.foldl (fun container b => container ++ [f b]) acc = acc ++ l.map f := by
  induction l generalizing acc with
  | nil => simp
  | cons a l ih => simp [ih]

theorem renderBudgetList_cards (isCompact : Bool) (budgets : List Budget)
    (transactions : List Transaction) :
    (renderBudgetList isCompact budgets transactions).cards
      = budgets.map (budgetCard isCompact transactions) := by
  unfold renderBudgetList
  split
  · next h => simp [List.length_eq_zero.1 h]
  · simp [foldl_append_singleton]

/-- C9: `renderBudgetList` appends one status per budget in the order of the budgets: the
output has the length of the budget list and its i-th element is the status computed for
the i-th budget (nothing sorted, dropped or duplicated). -/
theorem renderBudgetList_order (isCompact : Bool) (budgets : List Budget)
    (transactions : List Transaction) :
    (renderBudgetList isCompact budgets transactions).cards
        = budgets.map (budgetCard isCompact transactions)
      ∧ (renderBudgetList isCompact budgets transactions).cards.length = budgets.length
      ∧ ∀ i : Nat,
          (renderBudgetList isCompact budgets transactions).cards[i]?
            = (budgets[i]?).map (budgetCard isCompact transactions) := by
  refine ⟨renderBudgetList_cards _ _ _, ?_, ?_⟩
  · rw [renderBudgetList_cards, List.length_map]
  · intro i
    rw [renderBudgetList_cards, List.getElem?_map]

/-- C10: `xs.slice(0, n)` is the list of the first `min(n, length)` elements of `xs` in
their order; the recent list of the dashboard is `slice(0, 4)` of the transactions as
fetched, so for ten transactions it holds those at the indices 0 to 3. -/
theorem recentTransactions_first (transactions : List Transaction) (n : Nat) :
    slice transactions 0 n = transactions.take n
      ∧ (slice transactions 0 n).length = min n transactions.length
      ∧ (∀ i : Nat,
          (slice transactions 0 n)[i]? = if i < n then transactions[i]? else none)
      ∧ recentTransactions transactions = slice transactions 0 4
      ∧ (∀ budgets : List Budget,
          (refreshDashboard transactions budgets).recent
            = (transactions.take 4).map recentRow)
      ∧ (∀ t0 t1 t2 t3 t4 t5 t6 t7 t8 t9 : Transaction,
          recentTransactions [t0, t1, t2, t3, t4, t5, t6, t7, t8, t9]
            = [t0, t1, t2, t3]) := by
  have hs : ∀ (l : List Transaction) (k : Nat), slice l 0 k = l.take k := by
    intro l k
    simp [slice]
  refine ⟨hs _ _, ?_, ?_, rfl, ?_, ?_⟩
  · rw [hs, List.length_take]
  · intro i
    rw [hs, List.getElem?_take]
  · intro budgets
    simp [refreshDashboard, recentTransactions, hs]
  · intro t0 t1 t2 t3 t4 t5 t6 t7 t8 t9
    rfl

/-! ## Category lookup -/

/-- C11: category lookup is total: for every id `getCategory` returns the catalogue entry
with that id when the catalogue has one, and the fallback record (name `Unknown`, icon
`fa-question`) when it has none; the result is always one of the two. -/
theorem getCategory_total (id : Int) :
    (∀ c ∈ categories, c.id = some id → getCategory id = c)
      ∧ ((∀ c ∈ categories, c.id ≠ some id) → getCategory id = unknownCategory)
      ∧ (getCategory id ∈ categories ∨ getCategory id = unknownCategory)
      ∧ unknownCategory.name = "Unknown" ∧ unknownCategory.icon = "fa-question" := by
  refine ⟨?_, ?_, ?_, rfl, rfl⟩
  · intro c hc hid
    simp only [categories, List.mem_cons, List.mem_singleton, List.not_mem_nil,
      or_false] at hc
    rcases hc with rfl | rfl | rfl | rfl | rfl | rfl | rfl | rfl | rfl <;>
      · obtain rfl := Option.some.inj hid
        rfl
  · intro hnone
    unfold getCategory
    cases hf : categories.find? (fun c => decide (c.id = some id)) with
    | none => rfl
    | some c =>
      have h1 : c ∈ categories := List.mem_of_find?_eq_some hf
      have h2 : c.id = some id := by simpa using List.find?_some hf
      exact absurd h2 (hnone c h1)
  · unfold getCategory
    cases hf : categories.find? (fun c => decide (c.id = some id)) with
    | none => exact Or.inr rfl
    | some c => exact Or.inl (List.mem_of_find?_eq_some hf)

/-- C11 (witness): id 4 is `Groceries`, id 42 is not in the catalogue. -/
theorem getCategory_total_witness :
    getCategory 4
        = { id := some 4, name := "Groceries", type := some "expense",
            icon := "fa-shopping-basket" }
      ∧ getCategory 42 = unknownCategory :=
  ⟨(getCategory_total 4).1 _ (by simp [categories]) rfl,
    (getCategory_total 42).2.1 (by simp [categories])⟩

/-! ## Deletion of a transaction -/

/-- C12: `DELETE /api/transactions/:id` removes exactly the rows whose id is the given id
and whose owner is the requesting user: every other row stays, unchanged, in its place and
as often as before, so the rows of every other user (also one with that id) are untouched;
creating a transaction leaves the rows already stored as they are. -/
theorem deleteTransaction_frame (db : Table TransactionRow) (userId id : Int) :
    (∀ r : TransactionRow,
        r ∈ (deleteTransaction db userId id).2.rows
          ↔ r ∈ db.rows ∧ ¬ (r.id = id ∧ r.user_id = userId))
      ∧ (deleteTransaction db userId id).2.rows.Sublist db.rows
      ∧ (∀ r : TransactionRow, ¬ (r.id = id ∧ r.user_id = userId) →
          (deleteTransaction db userId id).2.rows.count r = db.rows.count r)
      ∧ (deleteTransaction db userId id).2.rows.filter
            (fun r => !decide (r.user_id = userId))
          = db.rows.filter (fun r => !decide (r.user_id = userId))
      ∧ (deleteTransaction db userId id).2.nextId = db.nextId
      ∧ (∀ (poster : Option Int) (body : TransactionBody),
          db.rows <+: (postTransactions db poster body).2.rows) := by
  refine ⟨?_, ?_, ?_, ?_, rfl, ?_⟩
  · intro r
    simp only [deleteTransaction, List.mem_filter, Bool.not_eq_true', Bool.and_eq_false_imp,
      decide_eq_true_eq, decide_eq_false_iff_not, not_and]
  · exact List.filter_sublist _
  · intro r hr
    have hp : (fun r : TransactionRow =>
        !(decide (r.id = id) && decide (r.user_id = userId))) r = true := by
      by_cases h1 : r.id = id
      · have h2 : ¬ r.user_id = userId := fun h2 => hr ⟨h1, h2⟩
        simp [h1, h2]
      · simp [h1]
    exact List.count_filter hp
  · simp only [deleteTransaction, List.filter_filter]
    apply List.filter_congr
    intro r _
    by_cases h1 : r.user_id = userId <;> simp [h1]
  · intro poster body
    cases poster with
    | none => exact List.prefix_refl _
    | some uid => exact List.prefix_append _ _

/-- C12 (witness): users 1 and 2 each own a transaction with id 7 (and user 1 one with id
8); user 1 deletes id 7: the row of user 2 with id 7 is still there, once. -/
theorem deleteTransaction_frame_witness :
    (deleteTransaction
        { rows :=
            [ { id := 7, user_id := 1, category_id := 4, amount := 10, description := "",
                date := "2024-01-03", type := "expense" },
              { id := 7, user_id := 2, category_id := 5, amount := 20, description := "",
                date := "2024-01-02", type := "expense" },
              { id := 8, user_id := 1, category_id := 1, amount := 30, description := "",
                date := "2024-01-01", type := "income" } ],
          nextId := 9 } 1 7).2.rows.count
        { id := 7, user_id := 2, category_id := 5, amount := 20, description := "",
          date := "2024-01-02", type := "expense" }
      = List.count
          ({ id := 7, user_id := 2, category_id := 5, amount := 20, description := "",
             date := "2024-01-02", type := "expense" } : TransactionRow)
          [ { id := 7, user_id := 1, category_id := 4, amount := 10, description := "",
              date := "2024-01-03", type := "expense" },
            { id := 7, user_id := 2, category_id := 5, amount := 20, description := "",
              date := "2024-01-02", type := "expense" },
            { id := 8, user_id := 1, category_id := 1, amount := 30, description := "",
              date := "2024-01-01", type := "income" } ] :=
  (deleteTransaction_frame _ 1 7).2.2.1 _ (by simp)

/-! ## Display of a budget status -/

theorem filter_length_pos_iff {α : Type} (p : α → Bool) (l : List α) :
    (l.filter p).length > 0 ↔ ∃ a ∈ l, p a = true := by
  rw [gt_iff_lt, List.length_pos_iff_exists_mem]
  constructor
  · rintro ⟨a, ha⟩
    exact ⟨a, (List.mem_filter.1 ha).1, (List.mem_filter.1 ha).2⟩
  · rintro ⟨a, ha, hp⟩
    exact ⟨a, List.mem_filter.2 ⟨ha, hp⟩⟩

theorem register_rejected (db : Table UserRow) (username email password : String)
    (h : ∃ u ∈ db.rows, u.email = email) :
    ∃ msg : String,
      register db username email password = (UserResponse.error 400 msg, db) := by
  unfold register
  split
  · exact ⟨_, rfl⟩
  · have hpos : (db.rows.filter (fun u => decide (u.email = email))).length > 0 := by
      rw [filter_length_pos_iff]
      obtain ⟨u, hu, he⟩ := h
      exact ⟨u, hu, by simpa using he⟩
    simp only [hpos, if_true]
    exact ⟨_, rfl⟩

theorem register_accepted (db : Table UserRow) (username email password : String)
    (h1 : username ≠ "") (h2 : email ≠ "") (h3 : password ≠ "")
    (h : ∀ u ∈ db.rows, u.email ≠ email) :
    register db username email password
      = (UserResponse.user db.nextId username email,
          { rows := db.rows ++
              [{ id := db.nextId, username := username, email := email,
                 password_hash := password }],
            nextId := db.nextId + 1 }) := by
  have hnot : ¬ (db.rows.filter (fun u => decide (u.email = email))).length > 0 := by
    rw [filter_length_pos_iff]
    rintro ⟨u, hu, he⟩
    exact h u hu (by simpa using he)
  simp [register, h1, h2, h3, hnot]

theorem register_cases (db : Table UserRow) (username email password : String) :
    (register db username email password).2 = db
      ∨ ((∀ u ∈ db.rows, u.email ≠ email)
          ∧ (register db username email password).2
            = { rows := db.rows ++
                  [{ id := db.nextId, username := username, email := email,
                     password_hash := password }],
                nextId := db.nextId + 1 }) := by
  by_cases hv : username = "" ∨ email = "" ∨ password = ""
  · left
    simp [register, hv]
  · by_cases hex : ∃ u ∈ db.rows, u.email = email
    · left
      obtain ⟨msg, hmsg⟩ := register_rejected db username email password hex
      rw [hmsg]
    · right
      have hnone : ∀ u ∈ db.rows, u.email ≠ email := fun u hu he => hex ⟨u, hu, he⟩
      refine ⟨hnone, ?_⟩
      rw [register_accepted db username email password
        (fun h => hv (Or.inl h)) (fun h => hv (Or.inr (Or.inl h)))
        (fun h => hv (Or.inr (Or.inr h))) hnone]

theorem updateUserRow_id (uid : Int) (username email password : String) (u : UserRow) :
    (updateUserRow uid username email password u).id = u.id := by
  unfold updateUserRow
  split
  · split <;> rfl
  · rfl

theorem updateUserRow_email (uid : Int) (username email password : String) (u : UserRow) :
    (updateUserRow uid username email password u).email
      = if u.id = uid then email else u.email := by
  unfold updateUserRow
  split
  · split <;> rfl
  · rfl

theorem updateProfile_rejected (db : Table UserRow) (uid : Int)
    (username email password : String)
    (h : ∃ u ∈ db.rows, u.email = email ∧ u.id ≠ uid) :
    ∃ msg : String,
      updateProfile db (some uid) username email password
        = (UserResponse.error 400 msg, db) := by
  unfold updateProfile
  simp only
  split
  · exact ⟨_, rfl⟩
  · have hpos : (db.rows.filter (fun u =>
        decide (u.email = email) && !decide (u.id = uid))).length > 0 := by
      rw [filter_length_pos_iff]
      obtain ⟨u, hu, he, hid⟩ := h
      exact ⟨u, hu, by simp [he, hid]⟩
    simp only [hpos, if_true]
    exact ⟨_, rfl⟩

theorem updateProfile_accepted (db : Table UserRow) (uid : Int)
    (username email password : String) (h1 : username ≠ "") (h2 : email ≠ "")
    (h : ∀ u ∈ db.rows, u.email = email → u.id = uid) :
    updateProfile db (some uid) username email password
      = (UserResponse.user uid username email,
          { db with rows := db.rows.map (updateUserRow uid username email password) }) := by
  have hnot : ¬ (db.rows.filter (fun u =>
      decide (u.email = email) && !decide (u.id = uid))).length > 0 := by
    rw [filter_length_pos_iff]
    rintro ⟨u, hu, hp⟩
    simp only [Bool.and_eq_true, decide_eq_true_eq, Bool.not_eq_true',
      decide_eq_false_iff_not] at hp
    exact hp.2 (h u hu hp.1)
  simp [updateProfile, h1, h2, hnot]

theorem updateProfile_cases (db : Table UserRow) (userId : Option Int)
    (username email password : String) :
    (updateProfile db userId username email password).2 = db
      ∨ ∃ uid : Int, (∀ u ∈ db.rows, u.email = email → u.id = uid)
          ∧ (updateProfile db userId username email password).2
            = { db with
                rows := db.rows.map (updateUserRow uid username email password) } := by
  cases userId with
  | none => exact Or.inl rfl
  | some uid =>
    by_cases hv : username = "" ∨ email = ""
    · left
      simp [updateProfile, hv]
    · by_cases hex : ∃ u ∈ db.rows, u.email = email ∧ u.id ≠ uid
      · left
        obtain ⟨msg, hmsg⟩ := updateProfile_rejected db uid username email password hex
        rw [hmsg]
      · right
        have hall : ∀ u ∈ db.rows, u.email = email → u.id = uid := by
          intro u hu he
          by_contra hid
          exact hex ⟨u, hu, he, hid⟩
        refine ⟨uid, hall, ?_⟩
        rw [updateProfile_accepted db uid username email password
          (fun h => hv (Or.inl h)) (fun h => hv (Or.inr h)) hall]

theorem register_invariant (db : Table UserRow) (username email password : String)
    (hk : KeysUnique db) (he : EmailsUnique db.rows) :
    KeysUnique (register db username email password).2
      ∧ EmailsUnique (register db username email password).2.rows := by
  rcases register_cases db username email password with h | ⟨hnone, h⟩
  · rw [h]
    exact ⟨hk, he⟩
  · rw [h]
    refine ⟨⟨?_, ?_⟩, ?_⟩
    · show ((db.rows ++ [_]).map (fun u : UserRow => u.id)).Nodup
      rw [List.map_append, List.map_singleton]
      refine List.Nodup.append hk.1 (List.nodup_singleton _) ?_
      rw [List.disjoint_singleton]
      intro hmem
      obtain ⟨u, hu, hid⟩ := List.mem_map.1 hmem
      have hlt := hk.2 u hu
      have hid2 : u.id = db.nextId := hid
      omega
    · intro u hu
      show u.id < db.nextId + 1
      rcases List.mem_append.1 hu with hu | hu
      · have := hk.2 u hu
        omega
      · rw [List.mem_singleton.1 hu]
        show db.nextId < db.nextId + 1
        omega
    · show ((db.rows ++ [_]).map (fun u : UserRow => u.email)).Nodup
      rw [List.map_append, List.map_singleton]
      refine List.Nodup.append he (List.nodup_singleton _) ?_
      rw [List.disjoint_singleton]
      intro hmem
      obtain ⟨u, hu, hemail⟩ := List.mem_map.1 hmem
      exact hnone u hu hemail

theorem updateProfile_invariant (db : Table UserRow) (userId : Option Int)
    (username email password : String)
    (hk : KeysUnique db) (he : EmailsUnique db.rows) :
    KeysUnique (updateProfile db userId username email password).2
      ∧ EmailsUnique (updateProfile db userId username email password).2.rows := by
  rcases updateProfile_cases db userId username email password with h | ⟨uid, hall, h⟩
  · rw [h]
    exact ⟨hk, he⟩
  · rw [h]
    have hids : (db.rows.map (updateUserRow uid username email password)).map
        (fun u => u.id) = db.rows.map (fun u => u.id) := by
      rw [List.map_map]
      apply List.map_congr_left
      intro u _
      exact updateUserRow_id uid username email password u
    refine ⟨⟨?_, ?_⟩, ?_⟩
    · show ((db.rows.map (updateUserRow uid username email password)).map
          (fun u => u.id)).Nodup
      rw [hids]
      exact hk.1
    · intro u hu
      obtain ⟨v, hv, rfl⟩ := List.mem_map.1 hu
      rw [updateUserRow_id]
      exact hk.2 v hv
    · show ((db.rows.map (updateUserRow uid username email password)).map
          (fun u => u.email)).Nodup
      rw [List.map_map]
      refine List.Nodup.map_on ?_ (List.Nodup.of_map _ he)
      intro x hx y hy hxy
      simp only [Function.comp, updateUserRow_email] at hxy
      by_cases h1 : x.id = uid
      · by_cases h2 : y.id = uid
        · exact List.inj_on_of_nodup_map hk.1 hx hy (h1.trans h2.symm)
        · rw [if_pos h1, if_neg h2] at hxy
          exact absurd (hall y hy hxy.symm) h2
      · by_cases h2 : y.id = uid
        · rw [if_neg h1, if_pos h2] at hxy
          exact absurd (hall x hx hxy) h1
        · rw [if_neg h1, if_neg h2] at hxy
          exact List.inj_on_of_nodup_map he hx hy hxy

/-- C15: on a table of users whose ids form a key and in which no two users share an email,
every register request and every updateProfile request, accepted or rejected, leaves a
table with the same two properties; register is rejected (400, table unchanged) when a
user already has the email, updateProfile is rejected (400, table unchanged) when a user
with another id has the email, and the requests that pass the tests are carried out. -/
theorem users_emails_unique (db : Table UserRow) (hk : KeysUnique db)
    (he : EmailsUnique db.rows) :
    (∀ username email password : String,
        KeysUnique (register db username email password).2
          ∧ EmailsUnique (register db username email password).2.rows)
      ∧ (∀ (userId : Option Int) (username email password : String),
          KeysUnique (updateProfile db userId username email password).2
            ∧ EmailsUnique (updateProfile db userId username email password).2.rows)
      ∧ (∀ username email password : String, (∃ u ∈ db.rows, u.email = email) →
          ∃ msg : String,
            register db username email password = (UserResponse.error 400 msg, db))
      ∧ (∀ (uid : Int) (username email password : String),
          (∃ u ∈ db.rows, u.email = email ∧ u.id ≠ uid) →
            ∃ msg : String,
              updateProfile db (some uid) username email password
                = (UserResponse.error 400 msg, db))
      ∧ (∀ username email password : String,
          username ≠ "" → email ≠ "" → password ≠ "" →
          (∀ u ∈ db.rows, u.email ≠ email) →
            register db username email password
              = (UserResponse.user db.nextId username email,
                  { rows := db.rows ++
                      [{ id := db.nextId, username := username, email := email,
                         password_hash := password }],
                    nextId := db.nextId + 1 }))
      ∧ (∀ (uid : Int) (username email password : String),
          username ≠ "" → email ≠ "" →
          (∀ u ∈ db.rows, u.email = email → u.id = uid) →
            updateProfile db (some uid) username email password
              = (UserResponse.user uid username email,
                  { db with
                    rows := db.rows.map (updateUserRow uid username email password) })) :=
  ⟨fun username email password => register_invariant db username email password hk he,
    fun userId username email password =>
      updateProfile_invariant db userId username email password hk he,
    fun username email password h => register_rejected db username email password h,
    fun uid username email password h =>
      updateProfile_rejected db uid username email password h,
    fun username email password h1 h2 h3 h =>
      register_accepted db username email password h1 h2 h3 h,
    fun uid username email password h1 h2 h =>
      updateProfile_accepted db uid username email password h1 h2 h⟩

/-- C15 (witness): Ann and Bob are registered; a third user registers with a new email,
and Bob asks for Ann's email. -/
theorem users_emails_unique_witness :
    KeysUnique
        { rows := [ { id := 1, username := "ann", email := "ann@x.org",
                      password_hash := "pw1" },
                    { id := 2, username := "bob", email := "bob@x.org",
                      password_hash := "pw2" } ],
          nextId := 3 }
      ∧ EmailsUnique
          [ { id := 1, username := "ann", email := "ann@x.org", password_hash := "pw1" },
            { id := 2, username := "bob", email := "bob@x.org", password_hash := "pw2" } ]
      ∧ EmailsUnique (register
          { rows := [ { id := 1, username := "ann", email := "ann@x.org",
                        password_hash := "pw1" },
                      { id := 2, username := "bob", email := "bob@x.org",
                        password_hash := "pw2" } ],
            nextId := 3 } "cat" "cat@x.org" "pw3").2.rows
      ∧ EmailsUnique (updateProfile
          { rows := [ { id := 1, username := "ann", email := "ann@x.org",
                        password_hash := "pw1" },
                      { id := 2, username := "bob", email := "bob@x.org",
                        password_hash := "pw2" } ],
            nextId := 3 } (some 2) "bob" "ann@x.org" "").2.rows := by
  have hk : KeysUnique
      { rows := [ { id := 1, username := "ann", email := "ann@x.org",
                    password_hash := "pw1" },
                  { id := 2, username := "bob", email := "bob@x.org",
                    password_hash := "pw2" } ],
        nextId := 3 } := by
    simp [KeysUnique]
  have he : EmailsUnique
      [ { id := 1, username := "ann", email := "ann@x.org", password_hash := "pw1" },
        { id := 2, username := "bob", email := "bob@x.org", password_hash := "pw2" } ] := by
    simp [EmailsUnique]
  exact ⟨hk, he, ((users_emails_unique _ hk he).1 "cat" "cat@x.org" "pw3").2,
    ((users_emails_unique _ hk he).2.1 (some 2) "bob" "ann@x.org" "").2⟩

end FinanceTracker
